import Mathlib

/-!
Verification of `drama/log.py` (eaobservatory/pydrama): a shallow embedding of
the two logging sinks (`StrftimeHandler`, `MsgOutHandler`) and the bridge
formatter (`MsgOutFormatter`), with theorems settling the specification claims.

External effects (strftime/filesystem/drama calls) are modelled by environment
records that supply the results of the external calls, including injected
exceptions; each emit returns the mutated state, the mutated record, the list
of externally visible events performed, the exception (if any) that reached the
handler's outer `try`, and whether the emit returned normally, called
`handleError` (the local error-reporting path), or re-raised to the caller.
-/

namespace DramaLog

/-! ### Python logging levels (numeric values from the `logging` module) -/

def DEBUG : Nat := 10
def INFO : Nat := 20
def WARNING : Nat := 30
def ERROR : Nat := 40
def CRITICAL : Nat := 50

/-- Model of `logging.getLevelName` for the standard levels (used by `%(levelname)s`). -/
def getLevelName (n : Nat) : String :=
  if n = 10 then "DEBUG"
  else if n = 20 then "INFO"
  else if n = 30 then "WARNING"
  else if n = 40 then "ERROR"
  else if n = 50 then "CRITICAL"
  else "Level " ++ toString n

/-! ### Exceptions -/

/-- The type tag of a Python exception object.  `drama.BadStatus` is the
distinguished status-exception type; every other type is identified by name.
`t == drama.BadStatus` in the source is an identity check on the type object,
which this equality models. -/
inductive ExcType
  | badStatus
  | otherType (name : String)
  deriving DecidableEq

/-- The data of an exception value that the sinks inspect: `BadStatus` carries
`message` and a numeric `status`; for generic exceptions only `message` is
meaningful. -/
structure ExcValue where
  message : String
  status : Int
  deriving DecidableEq

/-- Python exceptions that can be raised inside an emit path.
`keyboardInterrupt` and `systemExit` are the interrupt/exit signals that the
source re-raises; `osError` models `OSError` (caught by `except OSError`);
`otherExc` is any other exception. -/
inductive PyExc
  | keyboardInterrupt
  | systemExit
  | osError (msg : String)
  | otherExc (msg : String)
  deriving DecidableEq

/-- Matches `except (KeyboardInterrupt, SystemExit)`. -/
def PyExc.isExitSignal : PyExc → Bool
  | .keyboardInterrupt => true
  | .systemExit => true
  | _ => false

/-- Matches `except OSError`. -/
def PyExc.isOSError : PyExc → Bool
  | .osError _ => true
  | _ => false

/-! ### Log records -/

/-- A `logging.LogRecord` restricted to the fields the sinks read or write.
`msg` holds the final message text (`record.getMessage()` with arguments
already applied).  `exc_text` is the formatter's cache of formatted exception
text; `exc_info` is the optional captured exception pair (the traceback
component is dropped: no modelled code consumes it). -/
structure LogRecord where
  created : Int
  levelno : Nat
  name : String
  msg : String
  exc_info : Option (ExcType × ExcValue)
  exc_text : Option String
  stack_info : Option String
  deriving DecidableEq

/-- Python truthiness of an optional string (`None` and `""` are falsy). -/
def strTruthy : Option String → Bool
  | none => false
  | some s => !s.isEmpty

/-! ### MsgOutFormatter -/

/-- Model of `traceback.format_exception(t, v, None)`: with a `None` traceback
the result is only the final exception-rendering line `"Type: message\n"`;
no `"Traceback (most recent call last)"` header and no stack frames appear. -/
def format_exception_noTb (t : ExcType) (v : ExcValue) : List String :=
  match t with
  | .badStatus => ["BadStatus: " ++ v.message ++ "\n"]
  | .otherType n => [n ++ ": " ++ v.message ++ "\n"]

/-- Source `MsgOutFormatter.formatException`: the message alone for `BadStatus`,
otherwise the joined, stripped type/message rendering with no traceback. -/
def MsgOutFormatter.formatException (ei : ExcType × ExcValue) : String :=
  if ei.1 = ExcType.badStatus then ei.2.message
  else (String.join (format_exception_noTb ei.1 ei.2)).trim

/-- Source `MsgOutFormatter.formatStack`: always the empty string. -/
def MsgOutFormatter.formatStack (_stack_info : String) : String := ""

/-- Format string `%(levelname)s:%(message)s`, installed on the bridge
formatter by `setup`. -/
def MsgOutFormatter.formatMessage (r : LogRecord) : String :=
  getLevelName r.levelno ++ ":" ++ r.msg

/-- Model of `logging.Formatter.format` as executed by `MsgOutFormatter`
(its format string uses no `%(asctime)s`, so the time branch is dead).
Returns the formatted string together with the record as mutated by the
`exc_text` caching step. -/
def MsgOutFormatter.format (r : LogRecord) : String × LogRecord :=
  let s := MsgOutFormatter.formatMessage r
  let r1 := match r.exc_info with
    | some ei =>
        if strTruthy r.exc_text then r
        else { r with exc_text := some (MsgOutFormatter.formatException ei) }
    | none => r
  let s1 := if strTruthy r1.exc_text then
      (if s.endsWith "\n" then s else s ++ "\n") ++ r1.exc_text.getD ""
    else s
  let s2 := if strTruthy r1.stack_info then
      (if s1.endsWith "\n" then s1 else s1 ++ "\n") ++
        MsgOutFormatter.formatStack (r1.stack_info.getD "")
    else s1
  (s2, r1)

/-! ### MsgOutHandler -/

/-- One call into the external drama task-control system. -/
inductive DramaCall
  | msgout (text : String)
  | ersout (text : String) (status : Int)
  deriving DecidableEq

/-- How an emit ended: returned normally, routed a failure to
`handleError` (the local error-reporting path), or re-raised to the caller. -/
inductive EmitOutcome
  | ok
  | handled
  | raised (e : PyExc)
  deriving DecidableEq

/-- Environment for one `MsgOutHandler.emit` call: the thread's currently
active exception (`sys.exc_info()` at emit time) and injected failures of the
individual steps (`none` means the step succeeds). -/
structure MsgOutEnv where
  activeExc : Option (ExcType × ExcValue)
  formatExc : Option PyExc
  msgoutExc : Option PyExc
  ersoutExc : Option PyExc

structure MsgOutResult where
  record : LogRecord
  calls : List DramaCall
  caught : Option PyExc
  outcome : EmitOutcome

/-- The status code computed on the `ersout` branch of the source:
`t, v, tb = sys.exc_info(); s = 0; if t == drama.BadStatus: s = v.status`. -/
def statusFromExcInfo (active : Option (ExcType × ExcValue)) : Int :=
  match active with
  | some (t, v) => if t = ExcType.badStatus then v.status else 0
  | none => 0

/-- The body of `MsgOutHandler.emit` (inside the outer `try`): clear
`record.exc_text`, format, clear again, then route on
`record.levelno < WARNING` to `drama.msgout` or `drama.ersout`.
Returns the mutated record, the drama calls invoked, and the exception (if
any) that escapes to the outer handler. -/
def MsgOutHandler.emitBody (env : MsgOutEnv) (record : LogRecord) :
    LogRecord × List DramaCall × Option PyExc :=
  let r1 := { record with exc_text := none }
  match env.formatExc with
  | some e => (r1, [], some e)
  | none =>
    let p := MsgOutFormatter.format r1
    let msg := p.1
    let r3 := { p.2 with exc_text := none }
    if record.levelno < WARNING then
      match env.msgoutExc with
      | some e => (r3, [DramaCall.msgout msg], some e)
      | none => (r3, [DramaCall.msgout msg], none)
    else
      let s := statusFromExcInfo env.activeExc
      match env.ersoutExc with
      | some e => (r3, [DramaCall.ersout msg s], some e)
      | none => (r3, [DramaCall.ersout msg s], none)

/-- Source `MsgOutHandler.emit`: the body wrapped in
`except (KeyboardInterrupt, SystemExit): raise` / `except: self.handleError`. -/
def MsgOutHandler.emit (env : MsgOutEnv) (record : LogRecord) : MsgOutResult :=
  let b := MsgOutHandler.emitBody env record
  match b.2.2 with
  | none => ⟨b.1, b.2.1, none, EmitOutcome.ok⟩
  | some e =>
      if e.isExitSignal then ⟨b.1, b.2.1, some e, EmitOutcome.raised e⟩
      else ⟨b.1, b.2.1, some e, EmitOutcome.handled⟩

/-! ### StrftimeHandler -/

/-- The mutable state of a `StrftimeHandler` instance: the constructor
parameters plus `filestr` (initially the sentinel `"."`), the derived
`baseFilename` and the open stream.  A `some p` stream is a handle open on
path `p`; `none` is a closed/not-yet-opened stream (the handler is built with
`delay=1`, so the stream starts `none`). -/
structure StrftimeState where
  filefmt : String
  utc : Bool
  chmod : Option Nat
  filestr : String
  baseFilename : String
  stream : Option String
  deriving DecidableEq

/-- Constructor `StrftimeHandler.__init__(filefmt, utc, chmod)`. -/
def StrftimeHandler.init (filefmt : String) (utc : Bool) (chmod : Option Nat) :
    StrftimeState :=
  { filefmt := filefmt, utc := utc, chmod := chmod,
    filestr := ".", baseFilename := ".", stream := none }

/-- Environment for `StrftimeHandler.emit`: the external time/path functions
and the filesystem's responses, with injected failures (`none` = success).
`strftime u fmt t` stands for `time.strftime(fmt, gmtime(t))` when `u` is
true and `time.strftime(fmt, localtime(t))` otherwise; `fileFormat` is the
handler's formatter applied to the record (`Formatter.format`), and
`fileFormatException` its exception renderer used to fill the `exc_text`
cache when the record carries `exc_info`. -/
structure FsEnv where
  strftime : Bool → String → Int → String
  abspath : String → String
  dirname : String → String
  makedirsExc : String → Option PyExc
  isdir : String → Bool
  chmodExc : Option PyExc
  openExc : Option PyExc
  formatExc : Option PyExc
  writeExc : Option PyExc
  fileFormatException : ExcType × ExcValue → String
  fileFormat : LogRecord → String

/-- Externally visible events of one `StrftimeHandler.emit`.
`setFilestr` records the assignment to `self.filestr` (the rollover of
`currentResolvedPath`); `openFile` records a successful file open;
`makedirs` and `chmodDir` record the attempts of those calls. -/
inductive FsEvent
  | setFilestr (p : String)
  | closeStream (p : String)
  | makedirs (d : String)
  | chmodDir (d : String) (mode : Nat)
  | openFile (p : String)
  | write (p : String) (text : String)
  deriving DecidableEq

structure StrftimeResult where
  state : StrftimeState
  record : LogRecord
  events : List FsEvent
  caught : Option PyExc
  outcome : EmitOutcome

/-- Python `os.path.dirname(base) or "."`: the parent directory of a path, falling
back to the current directory when the path has no directory component
(Python's `or` takes the fallback on the falsy empty string). -/
def dirOrDot (env : FsEnv) (base : String) : String :=
  if env.dirname base = "" then "." else env.dirname base

/-- The rollover block of `StrftimeHandler.emit` (lines 74-88): when the
resolved path differs from `self.filestr`, assign `filestr` and
`baseFilename`, close the open stream, and create the directory chain,
swallowing `OSError` when the directory nevertheless exists
(`except OSError: if not isdir(path): raise`).  The `chmod` call sits inside
the same `try`, so its `OSError` is swallowed by the same clause. -/
def StrftimeHandler.rollover (env : FsEnv) (st : StrftimeState)
    (filestr : String) : StrftimeState × List FsEvent × Option PyExc :=
  if filestr = st.filestr then (st, [], none)
  else
    let st1 := { st with filestr := filestr, baseFilename := env.abspath filestr }
    let evs1 := [FsEvent.setFilestr filestr]
    let closed : StrftimeState × List FsEvent :=
      match st1.stream with
      | some p => ({ st1 with stream := none }, evs1 ++ [FsEvent.closeStream p])
      | none => (st1, evs1)
    let st2 := closed.1
    let evs2 := closed.2
    let path := dirOrDot env st2.baseFilename
    match env.makedirsExc path with
    | some e =>
        let evs3 := evs2 ++ [FsEvent.makedirs path]
        if e.isOSError then
          if env.isdir path then (st2, evs3, none) else (st2, evs3, some e)
        else (st2, evs3, some e)
    | none =>
        let evs3 := evs2 ++ [FsEvent.makedirs path]
        match st2.chmod with
        | some mode =>
            let evs4 := evs3 ++ [FsEvent.chmodDir path mode]
            match env.chmodExc with
            | some e =>
                if e.isOSError then
                  if env.isdir path then (st2, evs4, none) else (st2, evs4, some e)
                else (st2, evs4, some e)
            | none => (st2, evs4, none)
        | none => (st2, evs3, none)

/-- Model of `logging.StreamHandler.emit` on an open stream `p`:
format the record (caching `exc_text` when `exc_info` is present, as
`Formatter.format` does) and write the result to the stream. -/
def StrftimeHandler.streamWrite (env : FsEnv) (st : StrftimeState)
    (r : LogRecord) (evs : List FsEvent) (p : String) :
    StrftimeState × LogRecord × List FsEvent × Option PyExc :=
  match env.formatExc with
  | some e => (st, r, evs, some e)
  | none =>
    let r1 := match r.exc_info with
      | some ei =>
          if strTruthy r.exc_text then r
          else { r with exc_text := some (env.fileFormatException ei) }
      | none => r
    let text := env.fileFormat r1
    match env.writeExc with
    | some e => (st, r1, evs, some e)
    | none => (st, r1, evs ++ [FsEvent.write p text], none)

/-- Model of `logging.FileHandler.emit`: open the stream lazily on
`baseFilename` if closed, then write via `StreamHandler.emit`.  (The stdlib
stream handler catches non-exit exceptions itself and routes them to the same
`handleError`; the embedding lets them flow to the single outer handler of
`StrftimeHandler.emit`, which is observationally the same routing.) -/
def StrftimeHandler.fileHandlerEmit (env : FsEnv) (st : StrftimeState)
    (r : LogRecord) : StrftimeState × LogRecord × List FsEvent × Option PyExc :=
  match st.stream with
  | none =>
      match env.openExc with
      | some e => (st, r, [], some e)
      | none =>
          StrftimeHandler.streamWrite env { st with stream := some st.baseFilename }
            r [FsEvent.openFile st.baseFilename] st.baseFilename
  | some p => StrftimeHandler.streamWrite env st r [] p

/-- The body of `StrftimeHandler.emit` inside the outer `try`: resolve the
strftime path from `record.created`, roll over if it changed, then emit via
the file handler. -/
def StrftimeHandler.emitBody (env : FsEnv) (st : StrftimeState) (r : LogRecord) :
    StrftimeState × LogRecord × List FsEvent × Option PyExc :=
  let filestr := env.strftime st.utc st.filefmt r.created
  let rolled := StrftimeHandler.rollover env st filestr
  match rolled.2.2 with
  | some e => (rolled.1, r, rolled.2.1, some e)
  | none =>
      let w := StrftimeHandler.fileHandlerEmit env rolled.1 r
      (w.1, w.2.1, rolled.2.1 ++ w.2.2.1, w.2.2.2)

/-- Source `StrftimeHandler.emit`: the body wrapped in
`except (KeyboardInterrupt, SystemExit): raise` / `except: self.handleError`. -/
def StrftimeHandler.emit (env : FsEnv) (st : StrftimeState) (r : LogRecord) :
    StrftimeResult :=
  let b := StrftimeHandler.emitBody env st r
  match b.2.2.2 with
  | none => ⟨b.1, b.2.1, b.2.2.1, none, EmitOutcome.ok⟩
  | some e =>
      if e.isExitSignal then ⟨b.1, b.2.1, b.2.2.1, some e, EmitOutcome.raised e⟩
      else ⟨b.1, b.2.1, b.2.2.1, some e, EmitOutcome.handled⟩

/-- Number of successful file opens in an event list. -/
def countOpens (evs : List FsEvent) : Nat :=
  (evs.filter fun e => match e with | FsEvent.openFile _ => true | _ => false).length

/-- Index of the first occurrence of an event in an event list (length of the
list when absent). -/
def eventIdx : List FsEvent → FsEvent → Nat
  | [], _ => 0
  | x :: xs, e => if x = e then 0 else eventIdx xs e + 1

/-! ### Helper lemmas -/

lemma msgOut_emit_calls (env : MsgOutEnv) (r : LogRecord) :
    (MsgOutHandler.emit env r).calls = (MsgOutHandler.emitBody env r).2.1 := by
  unfold MsgOutHandler.emit
  cases h : (MsgOutHandler.emitBody env r).2.2 with
  | none => simp [h]
  | some e => simp only [h]; split <;> rfl

lemma msgOut_emit_record (env : MsgOutEnv) (r : LogRecord) :
    (MsgOutHandler.emit env r).record = (MsgOutHandler.emitBody env r).1 := by
  unfold MsgOutHandler.emit
  cases h : (MsgOutHandler.emitBody env r).2.2 with
  | none => simp [h]
  | some e => simp only [h]; split <;> rfl

lemma msgOut_emit_caught (env : MsgOutEnv) (r : LogRecord) :
    (MsgOutHandler.emit env r).caught = (MsgOutHandler.emitBody env r).2.2 := by
  unfold MsgOutHandler.emit
  cases h : (MsgOutHandler.emitBody env r).2.2 with
  | none => simp [h]
  | some e => simp only [h]; split <;> rfl

lemma msgOut_body_calls (env : MsgOutEnv) (r : LogRecord)
    (hf : env.formatExc = none) :
    (MsgOutHandler.emitBody env r).2.1 =
      (if r.levelno < WARNING then
        [DramaCall.msgout (MsgOutFormatter.format { r with exc_text := none }).1]
      else
        [DramaCall.ersout (MsgOutFormatter.format { r with exc_text := none }).1
          (statusFromExcInfo env.activeExc)]) := by
  unfold MsgOutHandler.emitBody
  rw [hf]
  by_cases h : r.levelno < WARNING
  · simp only [if_pos h]
    cases env.msgoutExc <;> rfl
  · simp only [if_neg h]
    cases env.ersoutExc <;> rfl

/-! ### Concrete inputs for witnesses and counterexamples -/

def recInfo : LogRecord :=
  { created := 100, levelno := INFO, name := "task", msg := "hello",
    exc_info := none, exc_text := none, stack_info := none }

def recError : LogRecord := { recInfo with levelno := ERROR }

def recWarning : LogRecord := { recInfo with levelno := WARNING }

def envQuiet : MsgOutEnv :=
  { activeExc := none, formatExc := none, msgoutExc := none, ersoutExc := none }

def envActiveBad : MsgOutEnv :=
  { envQuiet with activeExc := some (ExcType.badStatus, ⟨"bad state", 42⟩) }

/-! ### Claim theorems: the severity-routed bridge -/

/-- C1: a record whose level is below the threshold is forwarded (as its
formatted text) to the external status-message call `drama.msgout` only, and a
record at or above the threshold to the error-message call `drama.ersout`
only; in particular INFO goes to the status channel and ERROR to the error
channel. -/
theorem C1_bridge_routing (env : MsgOutEnv) (r : LogRecord)
    (hf : env.formatExc = none) :
    (r.levelno < WARNING →
      (MsgOutHandler.emit env r).calls =
        [DramaCall.msgout (MsgOutFormatter.format { r with exc_text := none }).1]) ∧
    (WARNING ≤ r.levelno →
      (MsgOutHandler.emit env r).calls =
        [DramaCall.ersout (MsgOutFormatter.format { r with exc_text := none }).1
          (statusFromExcInfo env.activeExc)]) ∧
    (r.levelno = INFO →
      ∃ t, (MsgOutHandler.emit env r).calls = [DramaCall.msgout t]) ∧
    (r.levelno = ERROR →
      ∃ t s, (MsgOutHandler.emit env r).calls = [DramaCall.ersout t s]) := by
  have hc := (msgOut_emit_calls env r).trans (msgOut_body_calls env r hf)
  refine ⟨fun h => ?_, fun h => ?_, fun h => ?_, fun h => ?_⟩
  · rw [hc, if_pos h]
  · rw [hc, if_neg (Nat.not_lt.mpr h)]
  · exact ⟨_, by rw [hc, if_pos (by rw [h]; decide)]⟩
  · exact ⟨_, _, by rw [hc, if_neg (by rw [h]; decide)]⟩

theorem C1_witness :
    (MsgOutHandler.emit envQuiet recInfo).calls =
      [DramaCall.msgout (MsgOutFormatter.format { recInfo with exc_text := none }).1] ∧
    (MsgOutHandler.emit envQuiet recError).calls =
      [DramaCall.ersout (MsgOutFormatter.format { recError with exc_text := none }).1
        (statusFromExcInfo envQuiet.activeExc)] :=
  ⟨(C1_bridge_routing envQuiet recInfo rfl).1 (by decide),
   (C1_bridge_routing envQuiet recError rfl).2.1 (by decide)⟩

/-- C2: on the error-channel path the status code handed to `drama.ersout` is
computed from the thread's currently active exception (`sys.exc_info()`) and
not from the record's `exc_info` field (the record, including its `exc_info`,
is universally quantified and the code depends only on `env.activeExc`): the
exception's `status` field when its type is exactly `BadStatus`, and `0` when
no exception is active or its type is any other type. -/
theorem C2_error_status_code (env : MsgOutEnv) (r : LogRecord)
    (hf : env.formatExc = none) (hl : WARNING ≤ r.levelno) :
    ∃ text, (MsgOutHandler.emit env r).calls =
      [DramaCall.ersout text
        (match env.activeExc with
         | some (t, v) => if t = ExcType.badStatus then v.status else 0
         | none => 0)] := by
  have hc := (msgOut_emit_calls env r).trans (msgOut_body_calls env r hf)
  rw [hc, if_neg (Nat.not_lt.mpr hl)]
  exact ⟨_, rfl⟩

theorem C2_witness :
    (∃ text, (MsgOutHandler.emit envActiveBad recError).calls =
      [DramaCall.ersout text (42 : Int)]) ∧
    (∃ text, (MsgOutHandler.emit envQuiet recError).calls =
      [DramaCall.ersout text (0 : Int)]) :=
  ⟨C2_error_status_code envActiveBad recError rfl (by decide),
   C2_error_status_code envQuiet recError rfl (by decide)⟩

/-- C10: the routing threshold is exactly `WARNING`: every record with level
at or above `WARNING` (so in particular level exactly `WARNING`) goes to the
error-message call and never to the status-message call, and every record
strictly below `WARNING` goes to the status-message call and never to the
error-message call. -/
theorem C10_boundary_warning (env : MsgOutEnv) (r : LogRecord)
    (hf : env.formatExc = none) :
    (WARNING ≤ r.levelno →
      (∃ t s, (MsgOutHandler.emit env r).calls = [DramaCall.ersout t s]) ∧
      ∀ u, DramaCall.msgout u ∉ (MsgOutHandler.emit env r).calls) ∧
    (r.levelno < WARNING →
      (∃ t, (MsgOutHandler.emit env r).calls = [DramaCall.msgout t]) ∧
      ∀ u s, DramaCall.ersout u s ∉ (MsgOutHandler.emit env r).calls) := by
  have hc := (msgOut_emit_calls env r).trans (msgOut_body_calls env r hf)
  constructor
  · intro h
    rw [hc, if_neg (Nat.not_lt.mpr h)]
    exact ⟨⟨_, _, rfl⟩, fun u hu => by simp at hu⟩
  · intro h
    rw [hc, if_pos h]
    exact ⟨⟨_, rfl⟩, fun u s hu => by simp at hu⟩

theorem C10_witness :
    ((∃ t s, (MsgOutHandler.emit envQuiet recWarning).calls = [DramaCall.ersout t s]) ∧
      ∀ u, DramaCall.msgout u ∉ (MsgOutHandler.emit envQuiet recWarning).calls) ∧
    ((∃ t, (MsgOutHandler.emit envQuiet recInfo).calls = [DramaCall.msgout t]) ∧
      ∀ u s, DramaCall.ersout u s ∉ (MsgOutHandler.emit envQuiet recInfo).calls) :=
  ⟨(C10_boundary_warning envQuiet recWarning rfl).1 (by decide),
   (C10_boundary_warning envQuiet recInfo rfl).2 (by decide)⟩

/-- C9: the bridge formatter renders a `BadStatus` exception as exactly its
message field with no trace (so message `"bad state"` yields `"bad state"`),
renders any other exception as the stripped type/message line of
`traceback.format_exception` with a `None` traceback (no frame listings), and
`formatStack` returns the empty string on every input. -/
theorem C9_formatter_rendering (v : ExcValue) (n si : String) :
    MsgOutFormatter.formatException (ExcType.badStatus, v) = v.message ∧
    MsgOutFormatter.formatException (ExcType.badStatus, ⟨"bad state", -5⟩) = "bad state" ∧
    MsgOutFormatter.formatException (ExcType.otherType n, v) =
      (n ++ ": " ++ v.message ++ "\n").trim ∧
    MsgOutFormatter.formatStack si = "" := by
  refine ⟨rfl, rfl, ?_, rfl⟩
  simp [MsgOutFormatter.formatException, format_exception_noTb, String.join]

/-! ### Record preservation (claim C5) -/

/-- Two records agreeing on every field except possibly `exc_text`. -/
def sameButExcText (a b : LogRecord) : Prop :=
  a.created = b.created ∧ a.levelno = b.levelno ∧ a.name = b.name ∧
  a.msg = b.msg ∧ a.exc_info = b.exc_info ∧ a.stack_info = b.stack_info

lemma sameButExcText_refl (r : LogRecord) : sameButExcText r r :=
  ⟨rfl, rfl, rfl, rfl, rfl, rfl⟩

lemma sameButExcText_update (r : LogRecord) (t : Option String) :
    sameButExcText r { r with exc_text := t } :=
  ⟨rfl, rfl, rfl, rfl, rfl, rfl⟩

lemma format_snd_cases (x : LogRecord) :
    (MsgOutFormatter.format x).2 = x ∨
      ∃ t, (MsgOutFormatter.format x).2 = { x with exc_text := some t } := by
  unfold MsgOutFormatter.format
  dsimp only
  cases x.exc_info with
  | none => exact Or.inl rfl
  | some ei =>
    by_cases h : strTruthy x.exc_text
    · exact Or.inl (by dsimp only; rw [if_pos h])
    · exact Or.inr ⟨_, by dsimp only; rw [if_neg h]⟩

lemma format_snd_clear (x : LogRecord) :
    { (MsgOutFormatter.format x).2 with exc_text := none } =
      { x with exc_text := none } := by
  rcases format_snd_cases x with h | ⟨t, h⟩ <;> rw [h]

lemma msgOut_body_record (env : MsgOutEnv) (r : LogRecord) :
    (MsgOutHandler.emitBody env r).1 = { r with exc_text := none } := by
  unfold MsgOutHandler.emitBody
  cases env.formatExc with
  | some e => rfl
  | none =>
    by_cases h : r.levelno < WARNING
    · simp only [if_pos h]
      cases env.msgoutExc <;> (dsimp only; rw [format_snd_clear])
    · simp only [if_neg h]
      cases env.ersoutExc <;> (dsimp only; rw [format_snd_clear])

lemma streamWrite_record (env : FsEnv) (st : StrftimeState) (r : LogRecord)
    (evs : List FsEvent) (p : String) :
    sameButExcText r (StrftimeHandler.streamWrite env st r evs p).2.1 := by
  unfold StrftimeHandler.streamWrite
  cases env.formatExc with
  | some e => exact sameButExcText_refl r
  | none =>
    dsimp only
    cases hx : r.exc_info with
    | none => cases env.writeExc <;> exact sameButExcText_refl r
    | some ei =>
      cases env.writeExc <;>
        (dsimp only; split <;>
          first
            | exact sameButExcText_refl r
            | exact ⟨rfl, rfl, rfl, rfl, hx, rfl⟩)

lemma fileHandlerEmit_record (env : FsEnv) (st : StrftimeState) (r : LogRecord) :
    sameButExcText r (StrftimeHandler.fileHandlerEmit env st r).2.1 := by
  unfold StrftimeHandler.fileHandlerEmit
  cases st.stream with
  | none =>
    cases env.openExc with
    | some e => exact sameButExcText_refl r
    | none => exact streamWrite_record env _ r _ _
  | some p => exact streamWrite_record env st r [] p

lemma strftime_body_record (env : FsEnv) (st : StrftimeState) (r : LogRecord) :
    sameButExcText r (StrftimeHandler.emitBody env st r).2.1 := by
  unfold StrftimeHandler.emitBody
  dsimp only
  cases h : (StrftimeHandler.rollover env st
      (env.strftime st.utc st.filefmt r.created)).2.2 with
  | some e => exact sameButExcText_refl r
  | none => exact fileHandlerEmit_record env _ r

lemma strftime_emit_record (env : FsEnv) (st : StrftimeState) (r : LogRecord) :
    (StrftimeHandler.emit env st r).record = (StrftimeHandler.emitBody env st r).2.1 := by
  unfold StrftimeHandler.emit
  cases h : (StrftimeHandler.emitBody env st r).2.2.2 with
  | none => simp [h]
  | some e => simp only [h]; split <;> rfl

/-- C5 amended: no sink modifies any record field other than the formatter's
`exc_text` cache: the bridge sink always leaves the record with `exc_text`
cleared to `none` (it assigns `record.exc_text = None` before and after
formatting, which is itself a mutation), and the rotating sink's emit
preserves every field except possibly `exc_text`. -/
theorem C5_amended_record_fields (envM : MsgOutEnv) (envF : FsEnv)
    (st : StrftimeState) (r : LogRecord) :
    (MsgOutHandler.emit envM r).record = { r with exc_text := none } ∧
    sameButExcText r (StrftimeHandler.emit envF st r).record := by
  constructor
  · rw [msgOut_emit_record, msgOut_body_record]
  · rw [strftime_emit_record]
    exact strftime_body_record envF st r

def rCached : LogRecord := { recInfo with exc_text := some "cached" }

/-- C5 counterexample: the bridge sink does not consume the record read-only:
for a concrete record carrying a cached `exc_text`, the record that comes out
of `MsgOutHandler.emit` differs from the record that went in (its `exc_text`
field has been overwritten with `None`). -/
theorem C5_counterexample :
    (MsgOutHandler.emit envQuiet rCached).record ≠ rCached ∧
    (MsgOutHandler.emit envQuiet rCached).record.exc_text ≠ rCached.exc_text := by
  exact ⟨by decide, by decide⟩

/-! ### Propagation policy (claim C3) -/

lemma msgOut_outcome (env : MsgOutEnv) (r : LogRecord) :
    (MsgOutHandler.emit env r).outcome =
      (match (MsgOutHandler.emit env r).caught with
       | none => EmitOutcome.ok
       | some e =>
           if e.isExitSignal then EmitOutcome.raised e else EmitOutcome.handled) := by
  rw [msgOut_emit_caught]
  unfold MsgOutHandler.emit
  cases h : (MsgOutHandler.emitBody env r).2.2 with
  | none => simp [h]
  | some e => simp only [h]; split <;> simp_all

lemma strftime_emit_caught (env : FsEnv) (st : StrftimeState) (r : LogRecord) :
    (StrftimeHandler.emit env st r).caught =
      (StrftimeHandler.emitBody env st r).2.2.2 := by
  unfold StrftimeHandler.emit
  cases h : (StrftimeHandler.emitBody env st r).2.2.2 with
  | none => simp [h]
  | some e => simp only [h]; split <;> rfl

lemma strftime_outcome (env : FsEnv) (st : StrftimeState) (r : LogRecord) :
    (StrftimeHandler.emit env st r).outcome =
      (match (StrftimeHandler.emit env st r).caught with
       | none => EmitOutcome.ok
       | some e =>
           if e.isExitSignal then EmitOutcome.raised e else EmitOutcome.handled) := by
  rw [strftime_emit_caught]
  unfold StrftimeHandler.emit
  cases h : (StrftimeHandler.emitBody env st r).2.2.2 with
  | none => simp [h]
  | some e => simp only [h]; split <;> simp_all

/-- C3: neither sink's emit ever propagates a non-exit exception to the
caller: an outcome of `raised e` happens only for the interrupt/exit signals;
any caught exception that is an interrupt/exit signal is re-raised and any
other caught exception is routed to `handleError` (the local error-handling
path); with no exception the emit returns normally. -/
theorem C3_failsafe_emit (envM : MsgOutEnv) (envF : FsEnv) (st : StrftimeState)
    (r : LogRecord) :
    (∀ e, (MsgOutHandler.emit envM r).outcome = EmitOutcome.raised e →
      e.isExitSignal = true) ∧
    (∀ e, (MsgOutHandler.emit envM r).caught = some e →
      (MsgOutHandler.emit envM r).outcome =
        if e.isExitSignal then EmitOutcome.raised e else EmitOutcome.handled) ∧
    ((MsgOutHandler.emit envM r).caught = none →
      (MsgOutHandler.emit envM r).outcome = EmitOutcome.ok) ∧
    (∀ e, (StrftimeHandler.emit envF st r).outcome = EmitOutcome.raised e →
      e.isExitSignal = true) ∧
    (∀ e, (StrftimeHandler.emit envF st r).caught = some e →
      (StrftimeHandler.emit envF st r).outcome =
        if e.isExitSignal then EmitOutcome.raised e else EmitOutcome.handled) ∧
    ((StrftimeHandler.emit envF st r).caught = none →
      (StrftimeHandler.emit envF st r).outcome = EmitOutcome.ok) := by
  have hm := msgOut_outcome envM r
  have hs := strftime_outcome envF st r
  refine ⟨fun e he => ?_, fun e he => ?_, fun he => ?_,
          fun e he => ?_, fun e he => ?_, fun he => ?_⟩
  · rw [hm] at he
    cases hc : (MsgOutHandler.emit envM r).caught with
    | none => rw [hc] at he; exact absurd he (by simp)
    | some e2 =>
      rw [hc] at he
      by_cases hx : e2.isExitSignal
      · simp only [hx, if_true] at he
        cases he
        exact hx
      · simp [hx] at he
  · rw [hm, he]
  · rw [hm, he]
  · rw [hs] at he
    cases hc : (StrftimeHandler.emit envF st r).caught with
    | none => rw [hc] at he; exact absurd he (by simp)
    | some e2 =>
      rw [hc] at he
      by_cases hx : e2.isExitSignal
      · simp only [hx, if_true] at he
        cases he
        exact hx
      · simp [hx] at he
  · rw [hs, he]
  · rw [hs, he]

def envExitM : MsgOutEnv := { envQuiet with formatExc := some PyExc.keyboardInterrupt }

def fsQuiet : FsEnv :=
  { strftime := fun _ _ _ => "/jac_logs/20140926/TASK.log",
    abspath := fun s => s,
    dirname := fun _ => "/jac_logs/20140926",
    makedirsExc := fun _ => none,
    isdir := fun _ => true,
    chmodExc := none, openExc := none, formatExc := none, writeExc := none,
    fileFormatException := fun ei => ei.2.message,
    fileFormat := fun r => r.msg }

def fsExit : FsEnv := { fsQuiet with openExc := some PyExc.systemExit }

def stFresh : StrftimeState := StrftimeHandler.init "/jac_logs/%Y%m%d/TASK.log" true none

theorem C3_witness :
    PyExc.isExitSignal PyExc.keyboardInterrupt = true ∧
    (MsgOutHandler.emit envExitM recInfo).outcome =
      (if PyExc.isExitSignal PyExc.keyboardInterrupt then
        EmitOutcome.raised PyExc.keyboardInterrupt else EmitOutcome.handled) ∧
    (MsgOutHandler.emit envQuiet recInfo).outcome = EmitOutcome.ok ∧
    PyExc.isExitSignal PyExc.systemExit = true ∧
    (StrftimeHandler.emit fsExit stFresh recInfo).outcome =
      (if PyExc.isExitSignal PyExc.systemExit then
        EmitOutcome.raised PyExc.systemExit else EmitOutcome.handled) ∧
    (StrftimeHandler.emit fsQuiet stFresh recInfo).outcome = EmitOutcome.ok := by
  have h1 := C3_failsafe_emit envExitM fsExit stFresh recInfo
  have h2 := C3_failsafe_emit envQuiet fsQuiet stFresh recInfo
  exact ⟨h1.1 PyExc.keyboardInterrupt (by rfl),
         h1.2.1 PyExc.keyboardInterrupt (by rfl),
         h2.2.2.1 (by rfl),
         h1.2.2.2.1 PyExc.systemExit (by rfl),
         h1.2.2.2.2.1 PyExc.systemExit (by rfl),
         h2.2.2.2.2.2 (by rfl)⟩

/-! ### Rotating-sink helper lemmas -/

lemma strftime_emit_state (env : FsEnv) (st : StrftimeState) (r : LogRecord) :
    (StrftimeHandler.emit env st r).state = (StrftimeHandler.emitBody env st r).1 := by
  unfold StrftimeHandler.emit
  cases h : (StrftimeHandler.emitBody env st r).2.2.2 with
  | none => simp [h]
  | some e => simp only [h]; split <;> rfl

lemma strftime_emit_events (env : FsEnv) (st : StrftimeState) (r : LogRecord) :
    (StrftimeHandler.emit env st r).events = (StrftimeHandler.emitBody env st r).2.2.1 := by
  unfold StrftimeHandler.emit
  cases h : (StrftimeHandler.emitBody env st r).2.2.2 with
  | none => simp [h]
  | some e => simp only [h]; split <;> rfl

lemma rollover_same (env : FsEnv) (st : StrftimeState) (f : String)
    (h : f = st.filestr) :
    StrftimeHandler.rollover env st f = (st, [], none) := by
  unfold StrftimeHandler.rollover
  rw [if_pos h]

lemma emitBody_same (env : FsEnv) (st : StrftimeState) (r : LogRecord)
    (h : env.strftime st.utc st.filefmt r.created = st.filestr) :
    StrftimeHandler.emitBody env st r = StrftimeHandler.fileHandlerEmit env st r := by
  unfold StrftimeHandler.emitBody
  dsimp only
  rw [rollover_same env st _ h]
  rfl

lemma fhe_some (env : FsEnv) (st : StrftimeState) (r : LogRecord) (q : String)
    (hs : st.stream = some q) :
    (StrftimeHandler.fileHandlerEmit env st r).1 = st ∧
    ((StrftimeHandler.fileHandlerEmit env st r).2.2.1 = [] ∨
      ∃ t, (StrftimeHandler.fileHandlerEmit env st r).2.2.1 = [FsEvent.write q t]) := by
  unfold StrftimeHandler.fileHandlerEmit StrftimeHandler.streamWrite
  rw [hs]
  cases env.formatExc with
  | some e => exact ⟨rfl, Or.inl rfl⟩
  | none =>
    dsimp only
    cases env.writeExc with
    | some e => exact ⟨rfl, Or.inl rfl⟩
    | none => exact ⟨rfl, Or.inr ⟨_, rfl⟩⟩

lemma fhe_none_fail (env : FsEnv) (st : StrftimeState) (r : LogRecord) (e : PyExc)
    (hs : st.stream = none) (ho : env.openExc = some e) :
    (StrftimeHandler.fileHandlerEmit env st r).1 = st ∧
    (StrftimeHandler.fileHandlerEmit env st r).2.2.1 = [] ∧
    (StrftimeHandler.fileHandlerEmit env st r).2.2.2 = some e := by
  unfold StrftimeHandler.fileHandlerEmit
  rw [hs, ho]
  exact ⟨rfl, rfl, rfl⟩

lemma fhe_none_ok (env : FsEnv) (st : StrftimeState) (r : LogRecord)
    (hs : st.stream = none) (ho : env.openExc = none) :
    (StrftimeHandler.fileHandlerEmit env st r).1 =
      { st with stream := some st.baseFilename } ∧
    ((StrftimeHandler.fileHandlerEmit env st r).2.2.1 =
        [FsEvent.openFile st.baseFilename] ∨
      ∃ t, (StrftimeHandler.fileHandlerEmit env st r).2.2.1 =
        [FsEvent.openFile st.baseFilename, FsEvent.write st.baseFilename t]) := by
  unfold StrftimeHandler.fileHandlerEmit StrftimeHandler.streamWrite
  rw [hs, ho]
  cases env.formatExc with
  | some e => exact ⟨rfl, Or.inl rfl⟩
  | none =>
    dsimp only
    cases env.writeExc with
    | some e => exact ⟨rfl, Or.inl rfl⟩
    | none => exact ⟨rfl, Or.inr ⟨_, rfl⟩⟩

lemma fhe_success_none (env : FsEnv) (st : StrftimeState) (r : LogRecord)
    (hs : st.stream = none) (ho : env.openExc = none)
    (hfmt : env.formatExc = none) (hw : env.writeExc = none) :
    (StrftimeHandler.fileHandlerEmit env st r).1 =
      { st with stream := some st.baseFilename } ∧
    (∃ t, (StrftimeHandler.fileHandlerEmit env st r).2.2.1 =
      [FsEvent.openFile st.baseFilename, FsEvent.write st.baseFilename t]) ∧
    (StrftimeHandler.fileHandlerEmit env st r).2.2.2 = none := by
  unfold StrftimeHandler.fileHandlerEmit StrftimeHandler.streamWrite
  rw [hs, ho, hfmt]
  dsimp only
  rw [hw]
  exact ⟨rfl, ⟨_, rfl⟩, rfl⟩

lemma fhe_success_some (env : FsEnv) (st : StrftimeState) (r : LogRecord)
    (q : String) (hs : st.stream = some q)
    (hfmt : env.formatExc = none) (hw : env.writeExc = none) :
    (StrftimeHandler.fileHandlerEmit env st r).1 = st ∧
    (∃ t, (StrftimeHandler.fileHandlerEmit env st r).2.2.1 = [FsEvent.write q t]) ∧
    (StrftimeHandler.fileHandlerEmit env st r).2.2.2 = none := by
  unfold StrftimeHandler.fileHandlerEmit StrftimeHandler.streamWrite
  rw [hs, hfmt]
  dsimp only
  rw [hw]
  exact ⟨rfl, ⟨_, rfl⟩, rfl⟩

lemma countOpens_append (a b : List FsEvent) :
    countOpens (a ++ b) = countOpens a + countOpens b := by
  simp [countOpens, List.filter_append]

lemma emit_same_shape (env : FsEnv) (st : StrftimeState) (r : LogRecord)
    (h : env.strftime st.utc st.filefmt r.created = st.filestr) :
    ((StrftimeHandler.emit env st r).state = st ∧
      ((StrftimeHandler.emit env st r).events = [] ∨
       ∃ q t, st.stream = some q ∧
         (StrftimeHandler.emit env st r).events = [FsEvent.write q t])) ∨
    (st.stream = none ∧ env.openExc = none ∧
      (StrftimeHandler.emit env st r).state =
        { st with stream := some st.baseFilename } ∧
      ((StrftimeHandler.emit env st r).events =
          [FsEvent.openFile st.baseFilename] ∨
       ∃ t, (StrftimeHandler.emit env st r).events =
         [FsEvent.openFile st.baseFilename, FsEvent.write st.baseFilename t])) := by
  have hst : (StrftimeHandler.emit env st r).state =
      (StrftimeHandler.fileHandlerEmit env st r).1 := by
    rw [strftime_emit_state, emitBody_same env st r h]
  have hev : (StrftimeHandler.emit env st r).events =
      (StrftimeHandler.fileHandlerEmit env st r).2.2.1 := by
    rw [strftime_emit_events, emitBody_same env st r h]
  cases hs : st.stream with
  | some q =>
    rcases fhe_some env st r q hs with ⟨h1, h2 | ⟨t, h2⟩⟩
    · exact Or.inl ⟨hst.trans h1, Or.inl (hev.trans h2)⟩
    · exact Or.inl ⟨hst.trans h1, Or.inr ⟨q, t, rfl, hev.trans h2⟩⟩
  | none =>
    cases ho : env.openExc with
    | some e =>
      obtain ⟨h1, h2, _⟩ := fhe_none_fail env st r e hs ho
      exact Or.inl ⟨hst.trans h1, Or.inl (hev.trans h2)⟩
    | none =>
      obtain ⟨h1, h2⟩ := fhe_none_ok env st r hs ho
      refine Or.inr ⟨rfl, rfl, hst.trans h1, ?_⟩
      rcases h2 with h2 | ⟨t, h2⟩
      · exact Or.inl (hev.trans h2)
      · exact Or.inr ⟨t, hev.trans h2⟩

/-- C6: for two records whose timestamps resolve to the path already held in
`currentResolvedPath`, the rotating sink performs no close and no rollover
assignment in either emit, at most one (lazy) file open occurs across the two
emits, and when a stream is already open it is left untouched, with no open
at all.  (The path comparison in the embedding is the string equality of the
resolved path with `filestr`, mirroring `filestr != self.filestr`.) -/
theorem C6_same_path_no_reopen (env : FsEnv) (st : StrftimeState)
    (r1 r2 : LogRecord)
    (h1 : env.strftime st.utc st.filefmt r1.created = st.filestr)
    (h2 : env.strftime st.utc st.filefmt r2.created = st.filestr) :
    (StrftimeHandler.emit env st r1).state.filestr = st.filestr ∧
    (StrftimeHandler.emit env (StrftimeHandler.emit env st r1).state r2).state.filestr
      = st.filestr ∧
    (∀ p, FsEvent.closeStream p ∉ (StrftimeHandler.emit env st r1).events ∧
      FsEvent.closeStream p ∉
        (StrftimeHandler.emit env (StrftimeHandler.emit env st r1).state r2).events) ∧
    (∀ p, FsEvent.setFilestr p ∉ (StrftimeHandler.emit env st r1).events ∧
      FsEvent.setFilestr p ∉
        (StrftimeHandler.emit env (StrftimeHandler.emit env st r1).state r2).events) ∧
    countOpens ((StrftimeHandler.emit env st r1).events ++
      (StrftimeHandler.emit env (StrftimeHandler.emit env st r1).state r2).events) ≤ 1 ∧
    (∀ q, st.stream = some q →
      (StrftimeHandler.emit env st r1).state.stream = some q ∧
      (StrftimeHandler.emit env (StrftimeHandler.emit env st r1).state r2).state.stream
        = some q ∧
      countOpens ((StrftimeHandler.emit env st r1).events ++
        (StrftimeHandler.emit env (StrftimeHandler.emit env st r1).state r2).events)
        = 0) := by
  rcases emit_same_shape env st r1 h1 with ⟨hs1, he1⟩ | ⟨hnone, ho, hs1, he1⟩
  · -- first emit leaves the state unchanged
    have h2' : env.strftime (StrftimeHandler.emit env st r1).state.utc
        (StrftimeHandler.emit env st r1).state.filefmt r2.created =
        (StrftimeHandler.emit env st r1).state.filestr := by rw [hs1]; exact h2
    rcases emit_same_shape env (StrftimeHandler.emit env st r1).state r2 h2'
      with ⟨hs2, he2⟩ | ⟨hnone2, ho2, hs2, he2⟩
    · refine ⟨by rw [hs1], by rw [hs2, hs1], ?_, ?_, ?_, ?_⟩
      · intro p
        refine ⟨?_, ?_⟩
        · rcases he1 with he | ⟨q, t, _, he⟩ <;> rw [he] <;> simp
        · rcases he2 with he | ⟨q, t, _, he⟩ <;> rw [he] <;> simp
      · intro p
        refine ⟨?_, ?_⟩
        · rcases he1 with he | ⟨q, t, _, he⟩ <;> rw [he] <;> simp
        · rcases he2 with he | ⟨q, t, _, he⟩ <;> rw [he] <;> simp
      · rw [countOpens_append]
        rcases he1 with he1 | ⟨q, t, _, he1⟩ <;> rcases he2 with he2 | ⟨q2, t2, _, he2⟩ <;>
          rw [he1, he2] <;> simp [countOpens]
      · intro q hq
        refine ⟨by rw [hs1, hq], by rw [hs2, hs1, hq], ?_⟩
        rw [countOpens_append]
        rcases he1 with he1 | ⟨q1, t1, _, he1⟩ <;> rcases he2 with he2 | ⟨q2, t2, _, he2⟩ <;>
          rw [he1, he2] <;> rfl
    · -- second emit opened: only possible when the first left the stream closed
      exfalso
      rw [hs1] at hnone2
      rcases he1 with he1 | ⟨q, t, hq, he1⟩
      · -- stream was closed and stayed closed: open failed in the first emit too,
        -- so env.openExc is both some and none
        rcases emit_same_shape env st r1 h1 with ⟨_, _⟩ | ⟨_, ho1, hs1', _⟩
        · -- re-examine: with the stream closed the first emit either failed to
          -- open (env.openExc = some) or opened (contradicting hs1)
          cases hoe : env.openExc with
          | none =>
            obtain ⟨hfst, _⟩ := fhe_none_ok env st r1 hnone2 hoe
            have : (StrftimeHandler.emit env st r1).state =
                { st with stream := some st.baseFilename } := by
              rw [strftime_emit_state, emitBody_same env st r1 h1, hfst]
            rw [hs1] at this
            have := congrArg StrftimeState.stream this
            rw [hnone2] at this
            exact Option.noConfusion this
          | some e => rw [ho2] at hoe; exact Option.noConfusion hoe
        · have hx := hs1.symm.trans hs1'
          have hsx := congrArg StrftimeState.stream hx
          rw [hnone2] at hsx
          exact Option.noConfusion hsx
      · rw [hq] at hnone2; exact Option.noConfusion hnone2
  · -- first emit opened the stream lazily
    have h2' : env.strftime (StrftimeHandler.emit env st r1).state.utc
        (StrftimeHandler.emit env st r1).state.filefmt r2.created =
        (StrftimeHandler.emit env st r1).state.filestr := by rw [hs1]; exact h2
    rcases emit_same_shape env (StrftimeHandler.emit env st r1).state r2 h2'
      with ⟨hs2, he2⟩ | ⟨hnone2, ho2, hs2, he2⟩
    · refine ⟨by rw [hs1], by rw [hs2, hs1], ?_, ?_, ?_, ?_⟩
      · intro p
        refine ⟨?_, ?_⟩
        · rcases he1 with he | ⟨t, he⟩ <;> rw [he] <;> simp
        · rcases he2 with he | ⟨q, t, _, he⟩ <;> rw [he] <;> simp
      · intro p
        refine ⟨?_, ?_⟩
        · rcases he1 with he | ⟨t, he⟩ <;> rw [he] <;> simp
        · rcases he2 with he | ⟨q, t, _, he⟩ <;> rw [he] <;> simp
      · rw [countOpens_append]
        rcases he1 with he1 | ⟨t, he1⟩ <;> rcases he2 with he2 | ⟨q2, t2, _, he2⟩ <;>
          rw [he1, he2] <;> simp [countOpens]
      · intro q hq
        rw [hnone] at hq
        exact Option.noConfusion hq
    · exfalso
      rw [hs1] at hnone2
      exact Option.noConfusion hnone2

def stSame : StrftimeState :=
  { filefmt := "/jac_logs/%Y%m%d/TASK.log", utc := true, chmod := none,
    filestr := "/jac_logs/20140926/TASK.log",
    baseFilename := "/jac_logs/20140926/TASK.log",
    stream := some "/jac_logs/20140926/TASK.log" }

theorem C6_witness :
    (StrftimeHandler.emit fsQuiet stSame recInfo).state.filestr = stSame.filestr ∧
    (StrftimeHandler.emit fsQuiet stSame recInfo).state.stream =
      some "/jac_logs/20140926/TASK.log" ∧
    countOpens ((StrftimeHandler.emit fsQuiet stSame recInfo).events ++
      (StrftimeHandler.emit fsQuiet
        (StrftimeHandler.emit fsQuiet stSame recInfo).state recError).events) = 0 := by
  have h := C6_same_path_no_reopen fsQuiet stSame recInfo recError rfl rfl
  obtain ⟨hstream, _, hcount⟩ :=
    h.2.2.2.2.2 "/jac_logs/20140926/TASK.log" rfl
  exact ⟨h.1, hstream, hcount⟩

/-! ### Rollover on a changed path (claim C4) -/

lemma rollover_ne (env : FsEnv) (st : StrftimeState) (f : String)
    (hne : f ≠ st.filestr) :
    (StrftimeHandler.rollover env st f).1.filefmt = st.filefmt ∧
    (StrftimeHandler.rollover env st f).1.utc = st.utc ∧
    (StrftimeHandler.rollover env st f).1.chmod = st.chmod ∧
    (StrftimeHandler.rollover env st f).1.filestr = f ∧
    (StrftimeHandler.rollover env st f).1.baseFilename = env.abspath f ∧
    (StrftimeHandler.rollover env st f).1.stream = none := by
  unfold StrftimeHandler.rollover
  rw [if_neg hne]
  dsimp only
  cases st.stream <;> (dsimp only; repeat' split) <;>
    exact ⟨rfl, rfl, rfl, rfl, rfl, rfl⟩

lemma rollover_ne_events (env : FsEnv) (st : StrftimeState) (f : String)
    (old : String) (hne : f ≠ st.filestr) (hs : st.stream = some old) :
    ∃ tail, (StrftimeHandler.rollover env st f).2.1 =
      FsEvent.setFilestr f :: FsEvent.closeStream old :: tail ∧
      (∀ p, FsEvent.openFile p ∉ tail) ∧
      (∀ p t, FsEvent.write p t ∉ tail) ∧
      (∀ p, FsEvent.closeStream p ∉ tail) := by
  unfold StrftimeHandler.rollover
  rw [if_neg hne]
  dsimp only
  rw [hs]
  dsimp only
  repeat' split
  all_goals exact ⟨_, rfl, fun p => by simp, fun p t => by simp, fun p => by simp⟩

lemma fhe_filestr (env : FsEnv) (st : StrftimeState) (r : LogRecord) :
    (StrftimeHandler.fileHandlerEmit env st r).1.filestr = st.filestr := by
  unfold StrftimeHandler.fileHandlerEmit StrftimeHandler.streamWrite
  cases st.stream with
  | none =>
    cases env.openExc with
    | some e => rfl
    | none =>
      cases env.formatExc with
      | some e => rfl
      | none => dsimp only; cases env.writeExc <;> rfl
  | some q =>
    cases env.formatExc with
    | some e => rfl
    | none => dsimp only; cases env.writeExc <;> rfl

lemma fhe_events_mem_none (env : FsEnv) (st : StrftimeState) (r : LogRecord)
    (hs : st.stream = none) :
    ∀ ev ∈ (StrftimeHandler.fileHandlerEmit env st r).2.2.1,
      ev = FsEvent.openFile st.baseFilename ∨
      ∃ t, ev = FsEvent.write st.baseFilename t := by
  intro ev hev
  cases ho : env.openExc with
  | some e =>
    rw [(fhe_none_fail env st r e hs ho).2.1] at hev
    simp at hev
  | none =>
    rcases (fhe_none_ok env st r hs ho).2 with h | ⟨t, h⟩ <;> rw [h] at hev <;>
      simp at hev
    · exact Or.inl hev
    · rcases hev with h1 | h1
      · exact Or.inl h1
      · exact Or.inr ⟨t, h1⟩

/-- A concrete environment in which the resolved path changes: the clock
resolves every record to `/log/new.log`, and every filesystem call succeeds. -/
def fsRoll : FsEnv :=
  { strftime := fun _ _ _ => "/log/new.log",
    abspath := fun s => s,
    dirname := fun _ => "/log",
    makedirsExc := fun _ => none,
    isdir := fun _ => true,
    chmodExc := none, openExc := none, formatExc := none, writeExc := none,
    fileFormatException := fun ei => ei.2.message,
    fileFormat := fun r => r.msg }

/-- A handler state currently holding `/log/old.log` open. -/
def stOld : StrftimeState :=
  { filefmt := "/log/%Y.log", utc := false, chmod := none,
    filestr := "/log/old.log", baseFilename := "/log/old.log",
    stream := some "/log/old.log" }

/-- C4 counterexample: on a path change the source assigns
`self.filestr` (lines 75-76) before closing the stream (lines 77-79), so in
the emitted event trace the `currentResolvedPath` assignment strictly
precedes the close of the old handle — the claim's listed order (close
first, then set the path) does not hold. -/
theorem C4_counterexample :
    (StrftimeHandler.emit fsRoll stOld recInfo).events =
      [FsEvent.setFilestr "/log/new.log", FsEvent.closeStream "/log/old.log",
       FsEvent.makedirs "/log", FsEvent.openFile "/log/new.log",
       FsEvent.write "/log/new.log" "hello"] ∧
    eventIdx (StrftimeHandler.emit fsRoll stOld recInfo).events
        (FsEvent.setFilestr "/log/new.log") <
      eventIdx (StrftimeHandler.emit fsRoll stOld recInfo).events
        (FsEvent.closeStream "/log/old.log") := by
  exact ⟨rfl, by decide⟩

/-- C4 amended: when the resolved path differs from `currentResolvedPath`,
emit first sets `currentResolvedPath` to the new path, then closes the open
handle, then creates the directory chain, and only then opens the new file;
hence the previously open handle is still closed before the new open, and
every open and every write in the remainder of the trace targets the new
resolved path (never the old one). -/
theorem C4_amended_rollover_order (env : FsEnv) (st : StrftimeState)
    (r : LogRecord) (old : String)
    (hne : env.strftime st.utc st.filefmt r.created ≠ st.filestr)
    (hs : st.stream = some old) :
    (StrftimeHandler.emit env st r).state.filestr =
      env.strftime st.utc st.filefmt r.created ∧
    ∃ rest, (StrftimeHandler.emit env st r).events =
        FsEvent.setFilestr (env.strftime st.utc st.filefmt r.created) ::
          FsEvent.closeStream old :: rest ∧
      (∀ p, FsEvent.openFile p ∈ rest →
        p = env.abspath (env.strftime st.utc st.filefmt r.created)) ∧
      (∀ p t, FsEvent.write p t ∈ rest →
        p = env.abspath (env.strftime st.utc st.filefmt r.created)) ∧
      (∀ p, FsEvent.closeStream p ∉ rest) := by
  obtain ⟨tail, htail, hto, htw, htc⟩ :=
    rollover_ne_events env st (env.strftime st.utc st.filefmt r.created) old hne hs
  have hro := rollover_ne env st (env.strftime st.utc st.filefmt r.created) hne
  rw [strftime_emit_state, strftime_emit_events]
  unfold StrftimeHandler.emitBody
  dsimp only
  cases hc : (StrftimeHandler.rollover env st
      (env.strftime st.utc st.filefmt r.created)).2.2 with
  | some e =>
    refine ⟨hro.2.2.2.1, tail, htail, ?_, ?_, ?_⟩
    · exact fun p hp => absurd hp (hto p)
    · exact fun p t hp => absurd hp (htw p t)
    · exact fun p hp => htc p hp
  | none =>
    refine ⟨?_, tail ++ (StrftimeHandler.fileHandlerEmit env
        (StrftimeHandler.rollover env st
          (env.strftime st.utc st.filefmt r.created)).1 r).2.2.1, ?_, ?_, ?_, ?_⟩
    · rw [fhe_filestr]
      exact hro.2.2.2.1
    · rw [htail]
      rfl
    · intro p hp
      rcases List.mem_append.mp hp with hp | hp
      · exact absurd hp (hto p)
      · rcases fhe_events_mem_none env _ r hro.2.2.2.2.2 _ hp with h | ⟨t, h⟩
        · injection h with h1
          rw [h1]
          exact hro.2.2.2.2.1
        · simp at h
    · intro p t hp
      rcases List.mem_append.mp hp with hp | hp
      · exact absurd hp (htw p t)
      · rcases fhe_events_mem_none env _ r hro.2.2.2.2.2 _ hp with h | ⟨u, h⟩
        · simp at h
        · injection h with h1 h2
          rw [h1]
          exact hro.2.2.2.2.1
    · intro p hp
      rcases List.mem_append.mp hp with hp | hp
      · exact htc p hp
      · rcases fhe_events_mem_none env _ r hro.2.2.2.2.2 _ hp with h | ⟨u, h⟩ <;>
          simp at h

theorem C4_witness :
    (StrftimeHandler.emit fsRoll stOld recInfo).state.filestr = "/log/new.log" ∧
    ∃ rest, (StrftimeHandler.emit fsRoll stOld recInfo).events =
        FsEvent.setFilestr "/log/new.log" ::
          FsEvent.closeStream "/log/old.log" :: rest ∧
      (∀ p, FsEvent.openFile p ∈ rest → p = "/log/new.log") ∧
      (∀ p t, FsEvent.write p t ∈ rest → p = "/log/new.log") ∧
      (∀ p, FsEvent.closeStream p ∉ rest) :=
  C4_amended_rollover_order fsRoll stOld recInfo "/log/old.log" (by decide) rfl

/-! ### Directory creation and chmod during rollover (claims C7, C8) -/

lemma osError_not_exit (e : PyExc) (h : e.isOSError = true) :
    e.isExitSignal = false := by
  cases e <;> simp [PyExc.isOSError, PyExc.isExitSignal] at h ⊢

lemma emitBody_rollover_none (env : FsEnv) (st : StrftimeState) (r : LogRecord)
    (hc : (StrftimeHandler.rollover env st
      (env.strftime st.utc st.filefmt r.created)).2.2 = none) :
    StrftimeHandler.emitBody env st r =
      ((StrftimeHandler.fileHandlerEmit env (StrftimeHandler.rollover env st
          (env.strftime st.utc st.filefmt r.created)).1 r).1,
       (StrftimeHandler.fileHandlerEmit env (StrftimeHandler.rollover env st
          (env.strftime st.utc st.filefmt r.created)).1 r).2.1,
       (StrftimeHandler.rollover env st
          (env.strftime st.utc st.filefmt r.created)).2.1 ++
         (StrftimeHandler.fileHandlerEmit env (StrftimeHandler.rollover env st
            (env.strftime st.utc st.filefmt r.created)).1 r).2.2.1,
       (StrftimeHandler.fileHandlerEmit env (StrftimeHandler.rollover env st
          (env.strftime st.utc st.filefmt r.created)).1 r).2.2.2) := by
  unfold StrftimeHandler.emitBody
  dsimp only
  rw [hc]

lemma emitBody_rollover_some (env : FsEnv) (st : StrftimeState) (r : LogRecord)
    (e : PyExc)
    (hc : (StrftimeHandler.rollover env st
      (env.strftime st.utc st.filefmt r.created)).2.2 = some e) :
    StrftimeHandler.emitBody env st r =
      ((StrftimeHandler.rollover env st
          (env.strftime st.utc st.filefmt r.created)).1, r,
       (StrftimeHandler.rollover env st
          (env.strftime st.utc st.filefmt r.created)).2.1, some e) := by
  unfold StrftimeHandler.emitBody
  dsimp only
  rw [hc]

lemma strftime_outcome_caught_none (env : FsEnv) (st : StrftimeState)
    (r : LogRecord)
    (h : (StrftimeHandler.emitBody env st r).2.2.2 = none) :
    (StrftimeHandler.emit env st r).outcome = EmitOutcome.ok := by
  rw [strftime_outcome, strftime_emit_caught, h]

lemma strftime_outcome_caught_nonexit (env : FsEnv) (st : StrftimeState)
    (r : LogRecord) (e : PyExc)
    (h : (StrftimeHandler.emitBody env st r).2.2.2 = some e)
    (hx : e.isExitSignal = false) :
    (StrftimeHandler.emit env st r).outcome = EmitOutcome.handled := by
  rw [strftime_outcome, strftime_emit_caught, h]
  simp [hx]

lemma rollover_no_open_write (env : FsEnv) (st : StrftimeState) (f : String) :
    (∀ p, FsEvent.openFile p ∉ (StrftimeHandler.rollover env st f).2.1) ∧
    (∀ p t, FsEvent.write p t ∉ (StrftimeHandler.rollover env st f).2.1) := by
  unfold StrftimeHandler.rollover
  split
  · exact ⟨fun p => by simp, fun p t => by simp⟩
  · dsimp only
    cases st.stream <;> (dsimp only; repeat' split) <;>
      exact ⟨fun p => by simp, fun p t => by simp⟩

lemma rollover_mkdir_exists (env : FsEnv) (st : StrftimeState) (f : String)
    (e : PyExc) (hne : f ≠ st.filestr)
    (hmk : env.makedirsExc (dirOrDot env (env.abspath f)) = some e)
    (hos : e.isOSError = true)
    (hdir : env.isdir (dirOrDot env (env.abspath f)) = true) :
    (StrftimeHandler.rollover env st f).2.2 = none := by
  unfold StrftimeHandler.rollover
  rw [if_neg hne]
  dsimp only
  cases st.stream <;> (dsimp only; rw [hmk]; simp [hos, hdir])

lemma rollover_mkdir_fatal (env : FsEnv) (st : StrftimeState) (f : String)
    (e : PyExc) (hne : f ≠ st.filestr)
    (hmk : env.makedirsExc (dirOrDot env (env.abspath f)) = some e)
    (hos : e.isOSError = true)
    (hdir : env.isdir (dirOrDot env (env.abspath f)) = false) :
    (StrftimeHandler.rollover env st f).2.2 = some e := by
  unfold StrftimeHandler.rollover
  rw [if_neg hne]
  dsimp only
  cases st.stream <;> (dsimp only; rw [hmk]; simp [hos, hdir])

lemma rollover_chmod_swallowed (env : FsEnv) (st : StrftimeState) (f : String)
    (m : Nat) (e : PyExc) (hne : f ≠ st.filestr)
    (hmk : env.makedirsExc (dirOrDot env (env.abspath f)) = none)
    (hcm : st.chmod = some m)
    (hex : env.chmodExc = some e) (hos : e.isOSError = true)
    (hdir : env.isdir (dirOrDot env (env.abspath f)) = true) :
    (StrftimeHandler.rollover env st f).2.2 = none ∧
    FsEvent.chmodDir (dirOrDot env (env.abspath f)) m ∈
      (StrftimeHandler.rollover env st f).2.1 := by
  unfold StrftimeHandler.rollover
  rw [if_neg hne]
  dsimp only
  cases st.stream <;>
    (dsimp only; rw [hmk]; dsimp only; rw [hcm]; dsimp only; rw [hex];
     simp [hos, hdir])

lemma emit_rollover_ok_writes (env : FsEnv) (st : StrftimeState) (r : LogRecord)
    (hne : env.strftime st.utc st.filefmt r.created ≠ st.filestr)
    (hcaught : (StrftimeHandler.rollover env st
      (env.strftime st.utc st.filefmt r.created)).2.2 = none)
    (ho : env.openExc = none) (hfmt : env.formatExc = none)
    (hw : env.writeExc = none) :
    (StrftimeHandler.emit env st r).outcome = EmitOutcome.ok ∧
    (∃ t, FsEvent.write (env.abspath (env.strftime st.utc st.filefmt r.created)) t ∈
      (StrftimeHandler.emit env st r).events) ∧
    (StrftimeHandler.emit env (StrftimeHandler.emit env st r).state r).outcome =
      EmitOutcome.ok := by
  have hro := rollover_ne env st (env.strftime st.utc st.filefmt r.created) hne
  have hdec := emitBody_rollover_none env st r hcaught
  obtain ⟨hstate, ⟨t, hevents⟩, hcaught2⟩ :=
    fhe_success_none env (StrftimeHandler.rollover env st
      (env.strftime st.utc st.filefmt r.created)).1 r hro.2.2.2.2.2 ho hfmt hw
  have hstate1 : (StrftimeHandler.emit env st r).state =
      { (StrftimeHandler.rollover env st
          (env.strftime st.utc st.filefmt r.created)).1 with
        stream := some (StrftimeHandler.rollover env st
          (env.strftime st.utc st.filefmt r.created)).1.baseFilename } := by
    rw [strftime_emit_state, hdec]
    exact hstate
  refine ⟨?_, ?_, ?_⟩
  · apply strftime_outcome_caught_none
    rw [hdec]
    exact hcaught2
  · refine ⟨t, ?_⟩
    rw [strftime_emit_events, hdec]
    apply List.mem_append.mpr
    refine Or.inr ?_
    rw [hevents, hro.2.2.2.2.1]
    simp
  · have h2 : env.strftime (StrftimeHandler.emit env st r).state.utc
        (StrftimeHandler.emit env st r).state.filefmt r.created =
        (StrftimeHandler.emit env st r).state.filestr := by
      rw [hstate1]
      show env.strftime (StrftimeHandler.rollover env st
          (env.strftime st.utc st.filefmt r.created)).1.utc
        (StrftimeHandler.rollover env st
          (env.strftime st.utc st.filefmt r.created)).1.filefmt r.created =
        (StrftimeHandler.rollover env st
          (env.strftime st.utc st.filefmt r.created)).1.filestr
      rw [hro.2.1, hro.1, hro.2.2.2.1]
    apply strftime_outcome_caught_none
    rw [emitBody_same env _ r h2]
    exact (fhe_success_some env _ r (StrftimeHandler.rollover env st
      (env.strftime st.utc st.filefmt r.created)).1.baseFilename
      (by rw [hstate1]) hfmt hw).2.2

/-- C7: during rollover, a directory-creation failure whose `OSError` finds
the directory nevertheless existing is swallowed: the emit proceeds, returns
normally, writes the record to the new resolved file, and a second emit with
the same timestamp also returns normally; a directory-creation `OSError` with
the directory absent is fatal for the emit: nothing is opened or written and
the failure is handed to `handleError`. -/
theorem C7_directory_creation (env : FsEnv) (st : StrftimeState) (r : LogRecord)
    (e : PyExc)
    (hne : env.strftime st.utc st.filefmt r.created ≠ st.filestr)
    (hmk : env.makedirsExc (dirOrDot env
      (env.abspath (env.strftime st.utc st.filefmt r.created))) = some e)
    (hos : e.isOSError = true) :
    (env.isdir (dirOrDot env
        (env.abspath (env.strftime st.utc st.filefmt r.created))) = true →
      env.openExc = none → env.formatExc = none → env.writeExc = none →
      (StrftimeHandler.emit env st r).outcome = EmitOutcome.ok ∧
      (∃ t, FsEvent.write (env.abspath
          (env.strftime st.utc st.filefmt r.created)) t ∈
        (StrftimeHandler.emit env st r).events) ∧
      (StrftimeHandler.emit env
        (StrftimeHandler.emit env st r).state r).outcome = EmitOutcome.ok) ∧
    (env.isdir (dirOrDot env
        (env.abspath (env.strftime st.utc st.filefmt r.created))) = false →
      (StrftimeHandler.emit env st r).outcome = EmitOutcome.handled ∧
      (∀ p t, FsEvent.write p t ∉ (StrftimeHandler.emit env st r).events) ∧
      (∀ p, FsEvent.openFile p ∉ (StrftimeHandler.emit env st r).events)) := by
  constructor
  · intro hdir ho hfmt hw
    exact emit_rollover_ok_writes env st r hne
      (rollover_mkdir_exists env st _ e hne hmk hos hdir) ho hfmt hw
  · intro hdir
    have hcaught := rollover_mkdir_fatal env st _ e hne hmk hos hdir
    have hdec := emitBody_rollover_some env st r e hcaught
    refine ⟨?_, ?_, ?_⟩
    · apply strftime_outcome_caught_nonexit env st r e
      · rw [hdec]
      · exact osError_not_exit e hos
    · intro p t hp
      rw [strftime_emit_events, hdec] at hp
      exact absurd hp ((rollover_no_open_write env st _).2 p t)
    · intro p hp
      rw [strftime_emit_events, hdec] at hp
      exact absurd hp ((rollover_no_open_write env st _).1 p)

def fsEexist : FsEnv :=
  { fsQuiet with makedirsExc := fun _ => some (PyExc.osError "EEXIST") }

def fsEperm : FsEnv :=
  { fsQuiet with
    makedirsExc := fun _ => some (PyExc.osError "EACCES")
    isdir := fun _ => false }

theorem C7_witness :
    ((StrftimeHandler.emit fsEexist stFresh recInfo).outcome = EmitOutcome.ok ∧
      (∃ t, FsEvent.write "/jac_logs/20140926/TASK.log" t ∈
        (StrftimeHandler.emit fsEexist stFresh recInfo).events) ∧
      (StrftimeHandler.emit fsEexist
        (StrftimeHandler.emit fsEexist stFresh recInfo).state recInfo).outcome =
        EmitOutcome.ok) ∧
    (StrftimeHandler.emit fsEperm stFresh recInfo).outcome =
      EmitOutcome.handled := by
  constructor
  · exact (C7_directory_creation fsEexist stFresh recInfo
      (PyExc.osError "EEXIST") (by decide) rfl rfl).1 rfl rfl rfl rfl
  · exact ((C7_directory_creation fsEperm stFresh recInfo
      (PyExc.osError "EACCES") (by decide) rfl rfl).2 rfl).1

/-- C8: when `chmod` is configured and the permission-set call on the newly
created directory fails with an `OSError`, the failure is swallowed: the emit
returns normally and the record is still written to the resolved file (the
chmod attempt itself does appear in the trace, with no retry). -/
theorem C8_chmod_failure_swallowed (env : FsEnv) (st : StrftimeState)
    (r : LogRecord) (m : Nat) (e : PyExc)
    (hne : env.strftime st.utc st.filefmt r.created ≠ st.filestr)
    (hmk : env.makedirsExc (dirOrDot env
      (env.abspath (env.strftime st.utc st.filefmt r.created))) = none)
    (hcm : st.chmod = some m)
    (hex : env.chmodExc = some e) (hos : e.isOSError = true)
    (hdir : env.isdir (dirOrDot env
      (env.abspath (env.strftime st.utc st.filefmt r.created))) = true)
    (ho : env.openExc = none) (hfmt : env.formatExc = none)
    (hw : env.writeExc = none) :
    (StrftimeHandler.emit env st r).outcome = EmitOutcome.ok ∧
    (∃ t, FsEvent.write (env.abspath
        (env.strftime st.utc st.filefmt r.created)) t ∈
      (StrftimeHandler.emit env st r).events) ∧
    FsEvent.chmodDir (dirOrDot env
        (env.abspath (env.strftime st.utc st.filefmt r.created))) m ∈
      (StrftimeHandler.emit env st r).events := by
  obtain ⟨hcaught, hchmod⟩ :=
    rollover_chmod_swallowed env st _ m e hne hmk hcm hex hos hdir
  have hmain := emit_rollover_ok_writes env st r hne hcaught ho hfmt hw
  refine ⟨hmain.1, hmain.2.1, ?_⟩
  rw [strftime_emit_events, emitBody_rollover_none env st r hcaught]
  exact List.mem_append.mpr (Or.inl hchmod)

def fsChmodFail : FsEnv := { fsQuiet with chmodExc := some (PyExc.osError "EPERM") }

def stFreshChmod : StrftimeState :=
  StrftimeHandler.init "/jac_logs/%Y%m%d/TASK.log" true (some 1535)

theorem C8_witness :
    (StrftimeHandler.emit fsChmodFail stFreshChmod recInfo).outcome =
      EmitOutcome.ok ∧
    (∃ t, FsEvent.write "/jac_logs/20140926/TASK.log" t ∈
      (StrftimeHandler.emit fsChmodFail stFreshChmod recInfo).events) ∧
    FsEvent.chmodDir "/jac_logs/20140926" 1535 ∈
      (StrftimeHandler.emit fsChmodFail stFreshChmod recInfo).events := by
  exact C8_chmod_failure_swallowed fsChmodFail stFreshChmod recInfo 1535
    (PyExc.osError "EPERM") (by decide) rfl rfl rfl rfl rfl rfl rfl rfl

end DramaLog
